import Mathlib

/-!
Shallow embedding of the clinic-appointment booking backend.

The Firestore document store is modelled as an explicit `Store` record of
association lists; every route handler and service function becomes a pure
Lean function from a `Store` (plus the outcomes of external calls, which are
passed as parameters) to a response together with the updated `Store`.
Server timestamps (`FieldValue.serverTimestamp()`) are external metadata and
are omitted from the document models; ISO timestamp strings produced by
`new Date().toISOString()` are threaded through as a `nowIso` parameter.

Sources embedded:
  - src/services/bookingService.ts   (confirmBooking, cancelBooking)
  - src/services/clinicService.ts    (isClinicOpen)
  - src/services/refundService.ts    (createRefundRecord)
  - payment routes: create-order, status-by-transaction, webhook handlers
    (handlePaymentSuccess, handlePaymentFailure, handleRefundCompleted,
     handleRefundFailed)
-/

namespace Clinic

/-! ## String and date helpers -/

/-- Split a character list at every occurrence of `c`
(the semantics of JavaScript `String.prototype.split` with a
one-character separator). -/
def splitOnChar (c : Char) : List Char → List (List Char)
  | [] => [[]]
  | x :: xs =>
    let rest := splitOnChar c xs
    if x = c then [] :: rest
    else match rest with
      | [] => [[x]]
      | r :: rs => (x :: r) :: rs

/-- `dateString.split('-')`. -/
def splitDash (s : String) : List String :=
  (splitOnChar '-' s.data).map (fun l => ⟨l⟩)

/-- Decimal parse of a digit sequence; `none` on the empty list or any
non-digit character. -/
def natOfDigits : List Char → Option Nat
  | [] => none
  | cs => cs.foldl (fun acc? c =>
      match acc? with
      | none => none
      | some acc => if c.isDigit then some (acc * 10 + (c.toNat - 48)) else none)
      (some 0)

/-- Parse `YYYY-MM-DD` into `(year, month, day)`; `none` when the string does
not have three dash-separated decimal components (modelling the JavaScript
`Invalid Date` produced by `new Date` on a malformed string, whose component
accessors return `NaN` and whose comparisons are all false). -/
def parseDate (s : String) : Option (Nat × Nat × Nat) :=
  match splitDash s with
  | [y, m, d] =>
    match natOfDigits y.data, natOfDigits m.data, natOfDigits d.data with
    | some yn, some mn, some dn => some (yn, mn, dn)
    | _, _, _ => none
  | _ => none

/-- Days since 0000-03-01 of a proleptic-Gregorian civil date
(Howard Hinnant's days-from-civil algorithm, restricted to CE years). -/
def daysFromCivil (y m d : Nat) : Nat :=
  let y' := if m ≤ 2 then y - 1 else y
  let era := y' / 400
  let yoe := y' - era * 400
  let mp := if m > 2 then m - 3 else m + 9
  let doy := (153 * mp + 2) / 5 + d - 1
  let doe := yoe * 365 + yoe / 4 - yoe / 100 + doy
  era * 146097 + doe

/-- Day of week with the JavaScript `Date.prototype.getDay` convention:
0 = Sunday, ..., 6 = Saturday. -/
def dayOfWeek (y m d : Nat) : Nat := (daysFromCivil y m d + 3) % 7

/-- `selectedDate.getDay() === 0` for a date string (false when the string
does not parse, as for a JavaScript `Invalid Date`). -/
def isSundayStr (s : String) : Bool :=
  match parseDate s with
  | some (y, m, d) => dayOfWeek y m d == 0
  | none => false

/-- Strict code-unit lexicographic order on character lists, the order used
by the JavaScript `<` operator on strings. -/
def strLtB : List Char → List Char → Bool
  | [], [] => false
  | [], _ :: _ => true
  | _ :: _, [] => false
  | a :: as, b :: bs =>
    if a.val < b.val then true
    else if b.val < a.val then false
    else strLtB as bs

/-- JavaScript `a <= b` on strings. -/
def strLeB (a b : String) : Bool := !(strLtB b.data a.data)

/-- bookingService.ts `formatDateToDocId`: `YYYY-MM-DD` to `DD-MM-YYYY`
(array destructuring of `split('-')`; a missing component is the string
`"undefined"` after template interpolation). -/
def formatDateToDocId (dateString : String) : String :=
  let parts := splitDash dateString
  (parts.getD 2 "undefined") ++ "-" ++ (parts.getD 1 "undefined") ++ "-" ++
    (parts.getD 0 "undefined")

/-- The create-order phone check `/^[6-9]\d{9}$/`. -/
def phoneValid (s : String) : Bool :=
  match s.data with
  | [] => false
  | c :: rest =>
    decide ('6' ≤ c) && decide (c ≤ '9') && rest.length == 9 &&
      rest.all Char.isDigit

/-! ## Association-list primitives for the document store -/

/-- Read a document by id. -/
def findKV {β : Type} (k : String) : List (String × β) → Option β
  | [] => none
  | (k', v) :: rest => if k = k' then some v else findKV k rest

/-- Write (create or overwrite) a document by id. -/
def setKV {β : Type} (k : String) (v : β) : List (String × β) → List (String × β)
  | [] => [(k, v)]
  | (k', v') :: rest =>
    if k = k' then (k, v) :: rest else (k', v') :: setKV k v rest

/-- Delete a document by id. -/
def delKV {β : Type} (k : String) (l : List (String × β)) : List (String × β) :=
  l.filter (fun kv => !(kv.1 == k))

/-! ## Data model -/

/-- `PendingBooking.status` values. -/
inductive PendingStatus where
  | pending
  | completed
  | failed
deriving DecidableEq, Repr

/-- A `pending_bookings` document (bookingService.ts `PendingBooking`;
`createdAt`/`completedAt`/`failedAt` server timestamps omitted).
`paymentId` and `slotNumber` are the fields added by the post-transaction
`update` in `confirmBooking`. -/
structure PendingBooking where
  orderId : String
  date : String
  name : String
  gender : String
  age : Nat
  phone : String
  amount : Nat
  status : PendingStatus
  paymentId : Option String := none
  slotNumber : Option Nat := none
deriving DecidableEq, Repr

/-- The nested `paymentDetails` object of a confirmed booking. -/
structure PayDetails where
  vpa : Option String := none
  bank : Option String := none
  wallet : Option String := none
  cardId : Option String := none
deriving DecidableEq, Repr

/-- The `paymentDetails` argument of `confirmBooking`. -/
structure PaymentDetailsIn where
  method : Option String := none
  vpa : Option String := none
  bank : Option String := none
  wallet : Option String := none
  cardId : Option String := none
deriving DecidableEq, Repr

/-- One confirmed booking inside a per-date `appointment_bookings` document
(bookingService.ts `BookingData`). -/
structure BookingData where
  slotNumber : Nat
  name : String
  gender : String
  age : Nat
  phone : String
  paymentId : String
  orderId : String
  amount : Nat
  paymentStatus : String
  paymentMethod : Option String := none
  paymentDetails : Option PayDetails := none
  timestamp : String
deriving DecidableEq, Repr

/-- `RefundRecord.status` values. -/
inductive RefundStatus where
  | initiated
  | completed
  | failed
deriving DecidableEq, Repr

/-- The booking snapshot stored inside a refund record. -/
structure RefundBookingData where
  date : String
  name : String
  phone : String
  slotNumber : Option Nat := none
deriving DecidableEq, Repr

/-- A `refunds` document (refundService.ts `RefundRecord`; timestamps
omitted; `errorCode`/`detailedErrorCode` are the fields added by the
refund-failed webhook update). -/
structure RefundRecord where
  refundId : String
  originalTransactionId : String
  merchantTransactionId : String
  amount : Nat
  reason : String
  status : RefundStatus
  bookingData : RefundBookingData
  errorCode : Option String := none
  detailedErrorCode : Option String := none
deriving DecidableEq, Repr

/-- A `failed_refunds` document written by the status endpoint when
automatic refund initiation reports failure. -/
structure FailedRefund where
  transactionId : String
  amount : Nat
  reason : String
  error : String
  pendingData : Option PendingBooking
  status : String
deriving DecidableEq, Repr

/-- A `webhook_logs` document (only the fields the code reads back). -/
structure WebhookLog where
  eventType : String
  transactionId : String
  status : String
  paymentMethod : String
  amount : Nat
  processed : Bool
deriving DecidableEq, Repr

/-- The singleton `clinic_control` document. -/
structure ClinicControl where
  isManuallyOverridden : Bool
  closedFrom : Option String := none
  closedTill : Option String := none
deriving DecidableEq, Repr

/-- The Firestore collections the embedded code touches.
`pending_bookings` is keyed by orderId, `appointment_bookings` by the
`DD-MM-YYYY` doc id, `refunds` by refundId, `failed_refunds` by
transactionId. -/
structure Store where
  pending_bookings : List (String × PendingBooking) := []
  appointment_bookings : List (String × List BookingData) := []
  refunds : List (String × RefundRecord) := []
  failed_refunds : List (String × FailedRefund) := []
  webhook_logs : List WebhookLog := []
deriving DecidableEq, Repr

/-! ## Clinic Availability Service (clinicService.ts isClinicOpen) -/

/-- The outcome of reading the `clinic_control/status` document:
a document (possibly absent), or a thrown store error. -/
inductive ClinicRead where
  | ok (c : Option ClinicControl)
  | err
deriving DecidableEq, Repr

/-- Return shape of `isClinicOpen`. -/
structure OpenResult where
  isOpen : Bool
  reason : Option String := none
deriving DecidableEq, Repr

/-- clinicService.ts `isClinicOpen`, with the document read and today's
date string (`new Date().toISOString().split('T')[0]`) as parameters. -/
def isClinicOpen (read : ClinicRead) (today : String) : OpenResult :=
  match read with
  | .err => { isOpen := true }
  | .ok none => { isOpen := true }
  | .ok (some controlData) =>
    if !controlData.isManuallyOverridden then { isOpen := true }
    else
      match controlData.closedFrom with
      | none => { isOpen := true }
      | some closedFrom =>
        if strLeB closedFrom today then
          match controlData.closedTill with
          | none =>
            { isOpen := false
              reason := some ("Clinic bookings are temporarily closed from "
                ++ closedFrom ++ " until further notice") }
          | some closedTill =>
            if strLeB today closedTill then
              { isOpen := false
                reason := some ("Clinic bookings are temporarily closed from "
                  ++ closedFrom ++ " to " ++ closedTill) }
            else { isOpen := true }
        else { isOpen := true }

/-! ## Booking Ledger (bookingService.ts) -/

/-- `bookings.reduce((max, b) => Math.max(max, b.slotNumber), 0)`. -/
def maxSlot (l : List BookingData) : Nat :=
  l.foldl (fun m b => max m b.slotNumber) 0

/-- The body of the `runTransaction` callback in `confirmBooking`:
given the current per-date document (`none` when absent) and the new
booking record with its slot number still unset, either abort with
`NO_SLOTS_AVAILABLE` (`none`) or return the updated bookings list and the
assigned slot number. -/
def slotAlloc (doc : Option (List BookingData)) (template : BookingData) :
    Option (List BookingData × Nat) :=
  match doc with
  | none => some ([{ template with slotNumber := 1 }], 1)
  | some bookings =>
    if 10 ≤ bookings.length then none
    else
      let nextSlotNumber := maxSlot bookings + 1
      some (bookings ++ [{ template with slotNumber := nextSlotNumber }],
        nextSlotNumber)

/-- Return values of `confirmBooking`. -/
inductive ConfirmResult where
  | ok (slotNumber : Nat) (date name : String)
  | pendingNotFound
  | noSlotsAvailable
deriving DecidableEq, Repr

/-- The `cleanPaymentDetails` construction in `confirmBooking`: keep only
the present fields, and omit the object entirely when all are absent. -/
def cleanPaymentDetails (pd : Option PaymentDetailsIn) : Option PayDetails :=
  match pd with
  | none => none
  | some p =>
    if p.vpa = none ∧ p.bank = none ∧ p.wallet = none ∧ p.cardId = none then
      none
    else some { vpa := p.vpa, bank := p.bank, wallet := p.wallet,
                cardId := p.cardId }

/-- bookingService.ts `confirmBooking`. Reads the pending booking, runs the
slot-allocation transaction against the per-date document, then updates the
pending booking to `completed`. Note that the pending booking's `status`
field is read but never checked. -/
def confirmBooking (s : Store) (orderId paymentId : String)
    (paymentDetails : Option PaymentDetailsIn) (nowIso : String) :
    ConfirmResult × Store :=
  match findKV orderId s.pending_bookings with
  | none => (.pendingNotFound, s)
  | some pendingData =>
    let docId := formatDateToDocId pendingData.date
    let doc := findKV docId s.appointment_bookings
    let newBooking : BookingData :=
      { slotNumber := 0
        name := pendingData.name
        gender := pendingData.gender
        age := pendingData.age
        phone := pendingData.phone
        paymentId := paymentId
        orderId := orderId
        amount := pendingData.amount
        paymentStatus := "paid"
        paymentMethod := paymentDetails.bind (·.method)
        paymentDetails := cleanPaymentDetails paymentDetails
        timestamp := nowIso }
    match slotAlloc doc newBooking with
    | none => (.noSlotsAvailable, s)
    | some (bookings', slotNumber) =>
      let s1 := { s with
        appointment_bookings := setKV docId bookings' s.appointment_bookings }
      let pending' := { pendingData with
        status := PendingStatus.completed
        paymentId := some paymentId
        slotNumber := some slotNumber }
      let s2 := { s1 with
        pending_bookings := setKV orderId pending' s1.pending_bookings }
      (.ok slotNumber pendingData.date pendingData.name, s2)

/-- Return values of `cancelBooking`. -/
inductive CancelResult where
  | success
  | failure
deriving DecidableEq, Repr

/-- bookingService.ts `cancelBooking`: an unconditional Firestore `update`
setting `status: 'failed'`; the update throws (caught, `success: false`)
exactly when the document is absent. The current status is never read. -/
def cancelBooking (s : Store) (orderId : String) : CancelResult × Store :=
  match findKV orderId s.pending_bookings with
  | none => (.failure, s)
  | some p =>
    (.success, { s with
      pending_bookings :=
        setKV orderId { p with status := PendingStatus.failed }
          s.pending_bookings })

/-! ## Refund Tracker (refundService.ts createRefundRecord) -/

/-- refundService.ts `createRefundRecord`: writes a refund record with
status `'initiated'`, keyed by refundId. -/
def createRefundRecord (s : Store)
    (refundId originalTransactionId merchantTransactionId : String)
    (amount : Nat) (reason : String) (bookingData : RefundBookingData) :
    Store :=
  let record : RefundRecord :=
    { refundId := refundId
      originalTransactionId := originalTransactionId
      merchantTransactionId := merchantTransactionId
      amount := amount
      reason := reason
      status := RefundStatus.initiated
      bookingData := bookingData }
  { s with refunds := setKV refundId record s.refunds }

/-! ## Status endpoint (GET /api/payment/status-by-transaction/:id) -/

/-- The `payment` object of a successful `checkPaymentStatus` call. -/
structure GwPayment where
  status : String := ""
  amount : Option Nat := none
  transactionId : Option String := none
  method : Option String := none
deriving DecidableEq, Repr

/-- Outcome of `checkPaymentStatus`. -/
inductive GwStatusResult where
  | fail
  | ok (payment : GwPayment)
deriving DecidableEq, Repr

/-- Outcome of the external `initiateRefund` call: success (with the
gateway-reported refund id, possibly absent), reported failure, or a
thrown exception. -/
inductive RefundOutcome where
  | ok (refundId : Option String)
  | fail (err : String)
  | throws
deriving DecidableEq, Repr

/-- Responses of the status-by-transaction endpoint. -/
inductive StatusResp where
  | notFound
  | checkError
  | refunded (refundId : String)
  | refundPendingContact
  | refundErrorContact
  | confirmFailed (r : ConfirmResult)
  | confirmed (slotNumber : Nat) (date name : String)
  | paymentFailed
  | stillPending (status : String)
deriving DecidableEq, Repr

/-- The GET /status-by-transaction/:transactionId handler. External calls
(`checkPaymentStatus`, the `clinic_control` read inside `isClinicOpen`,
`initiateRefund`) are passed in as outcome parameters. -/
def statusByTransaction (s : Store) (transactionId : String)
    (gw : GwStatusResult) (clinicRead : ClinicRead) (today : String)
    (refund : RefundOutcome) (nowIso : String) : StatusResp × Store :=
  match findKV transactionId s.pending_bookings with
  | none => (.notFound, s)
  | some pendingData =>
    match gw with
    | .fail => (.checkError, s)
    | .ok payment =>
      if payment.status = "SUCCESS" then
        if !(isClinicOpen clinicRead today).isOpen then
          match refund with
          | .ok rid? =>
            let rid := rid?.getD ("auto_" ++ transactionId)
            let s1 := createRefundRecord s rid transactionId transactionId
              (payment.amount.getD 40000)
              "Clinic closed during payment process - automatic refund"
              { date := pendingData.date, name := pendingData.name,
                phone := pendingData.phone }
            let s2 := { s1 with
              pending_bookings := delKV transactionId s1.pending_bookings }
            (.refunded rid, s2)
          | .fail e =>
            let fr : FailedRefund :=
              { transactionId := transactionId
                amount := payment.amount.getD 40000
                reason := "Clinic closed during payment - auto refund failed"
                error := e
                pendingData := some pendingData
                status := "manual_required" }
            let s1 := { s with
              failed_refunds := setKV transactionId fr s.failed_refunds }
            (.refundPendingContact, s1)
          | .throws => (.refundErrorContact, s)
        else
          let step := confirmBooking s transactionId
            (payment.transactionId.getD transactionId)
            (some { method := payment.method }) nowIso
          match step with
          | (.ok slotNumber date name, s1) =>
            let s2 := { s1 with
              pending_bookings := delKV transactionId s1.pending_bookings }
            (.confirmed slotNumber date name, s2)
          | (r, s1) => (.confirmFailed r, s1)
      else if payment.status = "FAILED" then
        (.paymentFailed, (cancelBooking s transactionId).2)
      else (.stillPending payment.status, s)

/-! ## Order creation (POST /api/payment/create-order) -/

/-- The request body fields; a JavaScript-falsy field is modelled as the
empty string (or 0 for `age`). -/
structure OrderReq where
  date : String := ""
  name : String := ""
  gender : String := ""
  age : Nat := 0
  phone : String := ""
  amount : Nat := 0
deriving DecidableEq, Repr

/-- The injected local clock: calendar components of `new Date()` plus
`getHours()`. (`getMonth()` is 0-based on both sides of the equality the
code performs, so human month numbers are used here.) -/
structure NowTime where
  year : Nat
  month : Nat
  day : Nat
  hour : Nat
deriving DecidableEq, Repr

/-- `selectedDate` has the same calendar day as `now` (false for an
unparseable date string, as all comparisons with `NaN` are false). -/
def isTodayStr (s : String) (now : NowTime) : Bool :=
  match parseDate s with
  | some (y, m, d) => y == now.year && m == now.month && d == now.day
  | none => false

/-- Outcome of the external `createPaymentOrder` call. -/
inductive GwOrder where
  | fail
  | ok (orderId : String)
deriving DecidableEq, Repr

/-- Responses of the create-order endpoint (the first five are the 400
rejections, in the order the handler checks them). -/
inductive CreateOrderResp where
  | missingFields
  | invalidAmount
  | invalidPhone
  | sundayClosed
  | afterCutoff
  | clinicClosed
  | noSlots
  | gatewayFailed
  | orderCreated (orderId : String)
deriving DecidableEq, Repr

/-- Result of the create-order handler: the response, the resulting store,
and whether the payment gateway was contacted. -/
structure CreateOrderOut where
  resp : CreateOrderResp
  store : Store
  gatewayCalled : Bool
deriving DecidableEq, Repr

/-- The POST /create-order handler. `cleanup` abstracts
`cleanupOldPendingBookings` (a timestamp-based batch delete), which runs
only after the five validation/precondition rejections. -/
def createOrder (s : Store) (req : OrderReq) (now : NowTime)
    (clinicRead : ClinicRead) (today : String) (cleanup : Store → Store)
    (gw : GwOrder) : CreateOrderOut :=
  if req.date = "" ∨ req.name = "" ∨ req.gender = "" ∨ req.age = 0 ∨
      req.phone = "" then
    ⟨.missingFields, s, false⟩
  else if req.amount ≠ 400 then ⟨.invalidAmount, s, false⟩
  else if !phoneValid req.phone then ⟨.invalidPhone, s, false⟩
  else if isSundayStr req.date then ⟨.sundayClosed, s, false⟩
  else if isTodayStr req.date now ∧ 19 ≤ now.hour then ⟨.afterCutoff, s, false⟩
  else
    let s1 := cleanup s
    if !(isClinicOpen clinicRead today).isOpen then ⟨.clinicClosed, s1, false⟩
    else
      let proceed : CreateOrderOut :=
        match gw with
        | .fail => ⟨.gatewayFailed, s1, true⟩
        | .ok orderId =>
          let pb : PendingBooking :=
            { orderId := orderId, date := req.date, name := req.name,
              gender := req.gender, age := req.age, phone := req.phone,
              amount := req.amount, status := PendingStatus.pending }
          ⟨.orderCreated orderId,
            { s1 with pending_bookings := setKV orderId pb s1.pending_bookings },
            true⟩
      match findKV (formatDateToDocId req.date) s1.appointment_bookings with
      | some bookings =>
        if 10 ≤ bookings.length then ⟨.noSlots, s1, false⟩ else proceed
      | none => proceed

/-! ## Webhook (POST /api/payment/webhook), after signature validation -/

/-- The normalized fields of a validated webhook payload the handlers
read. `paymentDetails` is `(paymentMode, transactionId)` of the first
element of the payload's `paymentDetails` array, when present. -/
structure WebhookPayload where
  state : String := ""
  paymentMethod : Option String := none
  amount : Option Nat := none
  paymentDetails : Option (Option String × Option String) := none
  refundId : Option String := none
  errorCode : Option String := none
  detailedErrorCode : Option String := none
deriving DecidableEq, Repr

/-- `handlePaymentSuccess`. The returned flag records whether
`confirmBooking` was invoked. -/
def handlePaymentSuccess (s : Store) (transactionId : String)
    (payload : WebhookPayload) (nowIso : String) : Store × Bool :=
  match findKV transactionId s.pending_bookings with
  | none => (s, false)
  | some pendingData =>
    if pendingData.status = PendingStatus.completed then (s, false)
    else
      let paymentMethod := (payload.paymentDetails.bind (·.1)).getD "UPI"
      let paymentId := (payload.paymentDetails.bind (·.2)).getD transactionId
      let step := confirmBooking s transactionId paymentId
        (some { method := some paymentMethod }) nowIso
      match step with
      | (.ok _ _ _, s1) =>
        ({ s1 with
            pending_bookings := delKV transactionId s1.pending_bookings },
          true)
      | (_, s1) => (s1, true)

/-- Update the first element satisfying `p`. -/
def updFirst {α : Type} (p : α → Bool) (f : α → α) : List α → List α
  | [] => []
  | x :: xs => if p x then f x :: xs else x :: updFirst p f xs

/-- `handleRefundCompleted`: mark the first refund record for this
transaction completed. -/
def handleRefundCompleted (s : Store) (transactionId : String)
    (payload : WebhookPayload) : Store :=
  let upd := updFirst
    (fun kv => kv.2.originalTransactionId == transactionId)
    (fun kv => (kv.1, { kv.2 with
      status := RefundStatus.completed
      refundId := payload.refundId.getD kv.2.refundId }))
    s.refunds
  { s with refunds := upd }

/-- `handleRefundFailed`: mark the first refund record for this
transaction failed, recording the error codes. -/
def handleRefundFailed (s : Store) (transactionId : String)
    (payload : WebhookPayload) : Store :=
  let upd := updFirst
    (fun kv => kv.2.originalTransactionId == transactionId)
    (fun kv => (kv.1, { kv.2 with
      status := RefundStatus.failed
      errorCode := some (payload.errorCode.getD "")
      detailedErrorCode := some (payload.detailedErrorCode.getD "") }))
    s.refunds
  { s with refunds := upd }

/-- The business dispatch of the webhook route. The PhonePe SDK's numeric
`CallbackType` enum values are normalized here to their names; the
`handlePaymentFailure` branch reduces to `cancelBooking`. An unknown event
type is logged and ignored. -/
def dispatchWebhook (s : Store) (transactionId eventType : String)
    (payload : WebhookPayload) (nowIso : String) : Store :=
  if eventType = "CHECKOUT_ORDER_COMPLETED" ∨ eventType = "PG_ORDER_COMPLETED"
  then (handlePaymentSuccess s transactionId payload nowIso).1
  else if eventType = "CHECKOUT_ORDER_FAILED" ∨ eventType = "PG_ORDER_FAILED"
  then (cancelBooking s transactionId).2
  else if eventType = "PG_REFUND_COMPLETED" then
    handleRefundCompleted s transactionId payload
  else if eventType = "PG_REFUND_FAILED" ∨ eventType = "PG_REFUND_ACCEPTED"
  then handleRefundFailed s transactionId payload
  else s

/-- The idempotency lookup: a `webhook_logs` record with this
(transactionId, eventType) pair exists. -/
def logExists (s : Store) (transactionId eventType : String) : Bool :=
  s.webhook_logs.any (fun log =>
    log.transactionId == transactionId && log.eventType == eventType)

/-- Mark the last (most recently added) webhook log processed, modelling
the `webhookLogRef.update({processed: true})` on the ref returned by the
`add` earlier in the handler. -/
def markProcessed : List WebhookLog → List WebhookLog
  | [] => []
  | [log] => [{ log with processed := true }]
  | log :: rest => log :: markProcessed rest

/-- Responses of the webhook route (after signature validation). -/
inductive WebhookResp where
  | missingFields
  | alreadyProcessed
  | processed
deriving DecidableEq, Repr

/-- The POST /webhook route from the field-extraction step on: missing
fields check, duplicate (transactionId, eventType) short-circuit, log
write, business dispatch, processed mark. (The probabilistic
`cleanupOldWebhookLogs` fire-and-forget is outside this model.) -/
def webhookStep (s : Store) (transactionId eventType : String)
    (payload : WebhookPayload) (nowIso : String) : WebhookResp × Store :=
  if eventType = "" ∨ transactionId = "" then (.missingFields, s)
  else if logExists s transactionId eventType then (.alreadyProcessed, s)
  else
    let log : WebhookLog :=
      { eventType := eventType
        transactionId := transactionId
        status := payload.state
        paymentMethod := payload.paymentMethod.getD "unknown"
        amount := payload.amount.getD 0
        processed := false }
    let s1 := { s with webhook_logs := s.webhook_logs ++ [log] }
    let s2 := dispatchWebhook s1 transactionId eventType payload nowIso
    (.processed, { s2 with webhook_logs := markProcessed s2.webhook_logs })

/-! ## Invariants and reachability -/

/-- The per-date document invariant: at most 10 confirmed bookings and
pairwise-distinct slot numbers. -/
def validDoc (l : List BookingData) : Prop :=
  l.length ≤ 10 ∧ (l.map (fun b => b.slotNumber)).Nodup

instance (l : List BookingData) : Decidable (validDoc l) := by
  unfold validDoc; infer_instance

/-- Date documents producible by the system: the absent document, plus
everything a successful slot-allocation transaction can produce from a
producible document. (`appointment_bookings` documents are written only by
`confirmBooking`'s transaction.) -/
inductive ReachableDoc : Option (List BookingData) → Prop
  | init : ReachableDoc none
  | step (d : Option (List BookingData)) (t : BookingData)
      (l' : List BookingData) (n : Nat) :
      ReachableDoc d → slotAlloc d t = some (l', n) → ReachableDoc (some l')

/-! ## Concrete fixtures for witnesses and counterexamples -/

/-- A confirmed-booking record with the given slot and order id. -/
def sampleBooking (slot : Nat) (oid : String) : BookingData :=
  { slotNumber := slot, name := "N", gender := "M", age := 30,
    phone := "9876543210", paymentId := "p", orderId := oid, amount := 400,
    paymentStatus := "paid", timestamp := "T" }

/-- A pending-booking record with the given order id, date and status. -/
def samplePending (oid date : String) (st : PendingStatus) : PendingBooking :=
  { orderId := oid, date := date, name := "Alice", gender := "F", age := 30,
    phone := "9876543210", amount := 400, status := st }

/-- A date document at full capacity (10 bookings, slots 1..10). -/
def c1FullList : List BookingData :=
  (List.range 10).map (fun i => sampleBooking (i + 1) "o")

/-- Store whose 2025-06-10 date document is at capacity. -/
def c1Store : Store :=
  { pending_bookings := [("ord1", samplePending "ord1" "2025-06-10" .pending)]
    appointment_bookings := [("10-06-2025", c1FullList)] }

/-- Clinic override window 2025-06-01 .. 2025-06-05. -/
def juneCtrl : ClinicControl :=
  { isManuallyOverridden := true
    closedFrom := some "2025-06-01"
    closedTill := some "2025-06-05" }

/-- Store with a pending (unconfirmed) booking for 2025-06-03. -/
def c2Store : Store :=
  { pending_bookings := [("t1", samplePending "t1" "2025-06-03" .pending)] }

/-- The pending booking left by a first successful confirmation of order
`ord1` (status completed, slot 1 assigned). -/
def c3Pending : PendingBooking :=
  { samplePending "ord1" "2025-06-10" .completed with
      paymentId := some "pay1", slotNumber := some 1 }

/-- Store after a first successful confirmation of order `ord1` in which
the pending booking still exists with status completed (the post-success
delete is best-effort and can fail): the claimed input of the second
`confirmBooking` call. -/
def c3Store : Store :=
  { pending_bookings := [("ord1", c3Pending)]
    appointment_bookings := [("10-06-2025", [sampleBooking 1 "ord1"])] }

/-- Store with a pending booking for 2025-06-03 and no failed-refund
records. -/
def c4Store : Store :=
  { pending_bookings := [("t4", samplePending "t4" "2025-06-03" .pending)] }

/-- A processed webhook log entry for transaction t5. -/
def c5Log : WebhookLog :=
  { eventType := "CHECKOUT_ORDER_COMPLETED", transactionId := "t5",
    status := "COMPLETED", paymentMethod := "UPI", amount := 40000,
    processed := true }

/-- Store whose webhook log already holds (t5, CHECKOUT_ORDER_COMPLETED). -/
def c5Store : Store :=
  { webhook_logs := [c5Log] }

/-- Store with a completed pending booking for the webhook-guard witness. -/
def c10Store : Store :=
  { pending_bookings := [("t10", samplePending "t10" "2025-06-10" .completed)] }

/-- Store with a completed pending booking for the cancel counterexample. -/
def c9Store : Store :=
  { pending_bookings := [("ord9", samplePending "ord9" "2025-06-10" .completed)] }

/-- A valid create-order request for Sunday 2025-06-01. -/
def c8SundayReq : OrderReq :=
  { date := "2025-06-01", name := "Alice", gender := "F", age := 30,
    phone := "9876543210", amount := 400 }

/-- A valid create-order request for Saturday 2025-05-31. -/
def c8TodayReq : OrderReq :=
  { date := "2025-05-31", name := "Alice", gender := "F", age := 30,
    phone := "9876543210", amount := 400 }

/-- A local clock on 2025-05-31 at 20:00 (after the 19:00 cutoff). -/
def c8NowLate : NowTime := { year := 2025, month := 5, day := 31, hour := 20 }

/-- A local clock on 2025-05-31 at 10:00 (before the 19:00 cutoff). -/
def c8NowEarly : NowTime := { year := 2025, month := 5, day := 31, hour := 10 }

/-! ## Association-list lemmas -/

theorem findKV_setKV_self {β : Type} (k : String) (v : β)
    (l : List (String × β)) : findKV k (setKV k v l) = some v := by
  induction l with
  | nil => simp [setKV, findKV]
  | cons kv rest ih =>
    obtain ⟨k', v'⟩ := kv
    by_cases h : k = k'
    · simp [setKV, findKV, h]
    · simp [setKV, findKV, h, ih]

theorem setKV_setKV_self {β : Type} (k : String) (v : β)
    (l : List (String × β)) : setKV k v (setKV k v l) = setKV k v l := by
  induction l with
  | nil => simp [setKV]
  | cons kv rest ih =>
    obtain ⟨k', v'⟩ := kv
    by_cases h : k = k'
    · simp [setKV, h]
    · simp [setKV, h, ih]

theorem findKV_delKV_self {β : Type} (k : String) (l : List (String × β)) :
    findKV k (delKV k l) = none := by
  induction l with
  | nil => simp [delKV, findKV]
  | cons kv rest ih =>
    obtain ⟨k', v'⟩ := kv
    by_cases h : k' = k
    · have hstep : delKV k ((k', v') :: rest) = delKV k rest := by
        simp [delKV, List.filter_cons, h]
      rw [hstep, ih]
    · have hne : k ≠ k' := fun hk => h hk.symm
      have hstep : delKV k ((k', v') :: rest) = (k', v') :: delKV k rest := by
        simp [delKV, List.filter_cons, h]
      rw [hstep]
      simp [findKV, hne, ih]

/-! ## maxSlot lemmas -/

theorem maxSlot_foldl (l : List BookingData) :
    ∀ a : Nat, l.foldl (fun m b => max m b.slotNumber) a = max a (maxSlot l) := by
  induction l with
  | nil => intro a; simp [maxSlot]
  | cons x xs ih =>
    intro a
    simp only [maxSlot, List.foldl_cons] at *
    rw [ih (max a x.slotNumber), ih (max 0 x.slotNumber)]
    simp [Nat.max_assoc]

theorem maxSlot_cons (x : BookingData) (xs : List BookingData) :
    maxSlot (x :: xs) = max x.slotNumber (maxSlot xs) := by
  simp only [maxSlot, List.foldl_cons]
  rw [maxSlot_foldl]
  simp [maxSlot]

theorem mem_le_maxSlot {b : BookingData} {l : List BookingData} (h : b ∈ l) :
    b.slotNumber ≤ maxSlot l := by
  induction l with
  | nil => cases h
  | cons x xs ih =>
    rw [maxSlot_cons]
    rcases List.mem_cons.mp h with h' | h'
    · subst h'; exact Nat.le_max_left _ _
    · exact Nat.le_trans (ih h') (Nat.le_max_right _ _)

theorem maxSlot_append_single (l : List BookingData) (x : BookingData) :
    maxSlot (l ++ [x]) = max (maxSlot l) x.slotNumber := by
  simp [maxSlot, List.foldl_append]

/-! ## slotAlloc lemmas -/

theorem slotAlloc_some_full {l : List BookingData} {t : BookingData}
    (h : 10 ≤ l.length) : slotAlloc (some l) t = none := by
  simp [slotAlloc, h]

theorem slotAlloc_some_ok {l : List BookingData} {t : BookingData}
    (h : l.length < 10) :
    slotAlloc (some l) t =
      some (l ++ [{ t with slotNumber := maxSlot l + 1 }], maxSlot l + 1) := by
  simp [slotAlloc, Nat.not_le.mpr h]

/-! ## Capacity and distinctness invariant -/

theorem slotAlloc_validDoc {d : Option (List BookingData)} {t : BookingData}
    {l' : List BookingData} {n : Nat}
    (hd : validDoc (d.getD [])) (h : slotAlloc d t = some (l', n)) :
    validDoc l' := by
  cases d with
  | none =>
    simp only [slotAlloc, Option.some.injEq, Prod.mk.injEq] at h
    obtain ⟨hl, _⟩ := h
    subst hl
    exact ⟨by simp, by simp⟩
  | some bookings =>
    by_cases hfull : 10 ≤ bookings.length
    · rw [slotAlloc_some_full hfull] at h; cases h
    · have hlt : bookings.length < 10 := Nat.lt_of_not_le hfull
      rw [slotAlloc_some_ok hlt] at h
      simp only [Option.some.injEq, Prod.mk.injEq] at h
      obtain ⟨hl, _⟩ := h
      subst hl
      simp only [Option.getD_some] at hd
      obtain ⟨_, hnd⟩ := hd
      refine ⟨by simp; omega, ?_⟩
      rw [List.map_append, List.nodup_append]
      refine ⟨hnd, by simp, ?_⟩
      intro a ha hb
      simp only [List.map_cons, List.map_nil, List.mem_singleton] at hb
      subst hb
      obtain ⟨b, hbmem, hba⟩ := List.mem_map.mp ha
      have hle := mem_le_maxSlot hbmem
      omega

theorem reachableDoc_validDoc : ∀ d, ReachableDoc d → validDoc (d.getD []) := by
  intro d h
  induction h with
  | init => exact ⟨by simp, by simp⟩
  | step d t l' n _ hsa ih => simpa using slotAlloc_validDoc ih hsa

/-- C1: every date document producible by successful `confirmBooking`
transactions (starting from the absent document) has at most 10 confirmed
bookings with pairwise-distinct slot numbers; and a confirmation that
observes a list of length at least 10 inside the transaction returns the
`NO_SLOTS_AVAILABLE` error and leaves the store (in particular the date
document) unchanged. -/
theorem slot_capacity_invariant :
    (∀ d, ReachableDoc d → validDoc (d.getD [])) ∧
    (∀ (s : Store) (orderId paymentId : String) (pd : Option PaymentDetailsIn)
      (nowIso : String) (p : PendingBooking) (l : List BookingData),
      findKV orderId s.pending_bookings = some p →
      findKV (formatDateToDocId p.date) s.appointment_bookings = some l →
      10 ≤ l.length →
      confirmBooking s orderId paymentId pd nowIso =
        (ConfirmResult.noSlotsAvailable, s)) := by
  refine ⟨reachableDoc_validDoc, ?_⟩
  intro s orderId paymentId pd nowIso p l h1 h2 h3
  simp [confirmBooking, h1, h2, slotAlloc_some_full h3]

/-- C1 witness: the absent document satisfies the invariant, and the
capacity-full store `c1Store` rejects a confirmation with
`noSlotsAvailable`, unchanged. -/
theorem slot_capacity_invariant_witness :
    validDoc ((none : Option (List BookingData)).getD []) ∧
    confirmBooking c1Store "ord1" "pay1" none "2025-06-10T09:00:00Z" =
      (ConfirmResult.noSlotsAvailable, c1Store) :=
  ⟨slot_capacity_invariant.1 none ReachableDoc.init,
   slot_capacity_invariant.2 c1Store "ord1" "pay1" none "2025-06-10T09:00:00Z"
     (samplePending "ord1" "2025-06-10" .pending) c1FullList
     (by decide) (by decide) (by decide)⟩

/-- C6: a successful slot allocation assigns
`max(existing slot numbers, default 0) + 1`; the new slot number is
strictly larger than every existing one (so earlier numbers are never
reassigned), and it becomes the new maximum (so successive assignments on
the date are strictly increasing). -/
theorem slot_is_max_plus_one :
    ∀ (doc : Option (List BookingData)) (t : BookingData)
      (l' : List BookingData) (n : Nat),
      slotAlloc doc t = some (l', n) →
      n = maxSlot (doc.getD []) + 1 ∧
      (∀ b ∈ doc.getD [], b.slotNumber < n) ∧
      maxSlot l' = n := by
  intro doc t l' n h
  cases doc with
  | none =>
    simp only [slotAlloc, Option.some.injEq, Prod.mk.injEq] at h
    obtain ⟨hl, hn⟩ := h
    subst hl
    refine ⟨by simp [maxSlot]; omega, by simp, ?_⟩
    simp [maxSlot]
    omega
  | some bookings =>
    by_cases hfull : 10 ≤ bookings.length
    · rw [slotAlloc_some_full hfull] at h; cases h
    · have hlt : bookings.length < 10 := Nat.lt_of_not_le hfull
      rw [slotAlloc_some_ok hlt] at h
      simp only [Option.some.injEq, Prod.mk.injEq] at h
      obtain ⟨hl, hn⟩ := h
      subst hl
      refine ⟨by simp [hn], ?_, ?_⟩
      · intro b hb
        simp only [Option.getD_some] at hb
        have hle := mem_le_maxSlot hb
        omega
      · rw [maxSlot_append_single]
        simp [hn]
        omega

/-- C6 witness: allocating into a one-booking document whose only slot is
3 assigns slot 4 = max + 1, which is the new maximum. -/
theorem slot_is_max_plus_one_witness :
    4 = maxSlot ((some [sampleBooking 3 "a"]).getD []) + 1 ∧
    maxSlot [sampleBooking 3 "a",
      { sampleBooking 0 "b" with slotNumber := 4 }] = 4 :=
  ⟨(slot_is_max_plus_one (some [sampleBooking 3 "a"]) (sampleBooking 0 "b")
      [sampleBooking 3 "a", { sampleBooking 0 "b" with slotNumber := 4 }] 4
      (by decide)).1,
   (slot_is_max_plus_one (some [sampleBooking 3 "a"]) (sampleBooking 0 "b")
      [sampleBooking 3 "a", { sampleBooking 0 "b" with slotNumber := 4 }] 4
      (by decide)).2.2⟩

/-! ## Clinic availability -/

/-- C7: `isClinicOpen` reports closed exactly when the control document was
read successfully, is present, has the override flag set, has a
`closedFrom` that is at or before today, and has no `closedTill` or a
`closedTill` at or after today (inclusive string comparison on ISO dates);
in every other situation — absent document, override off, outside the
window, or a thrown store read — it reports open. -/
theorem isClinicOpen_closed_iff :
    ∀ (read : ClinicRead) (today : String),
      (isClinicOpen read today).isOpen = false ↔
        ∃ c, read = ClinicRead.ok (some c) ∧ c.isManuallyOverridden = true ∧
          ∃ f, c.closedFrom = some f ∧ strLeB f today = true ∧
            (c.closedTill = none ∨
             ∃ t, c.closedTill = some t ∧ strLeB today t = true) := by
  intro read today
  cases read with
  | err => simp [isClinicOpen]
  | ok c? =>
    cases c? with
    | none => simp [isClinicOpen]
    | some c =>
      cases hm : c.isManuallyOverridden with
      | false => simp [isClinicOpen, hm]
      | true =>
        cases hf : c.closedFrom with
        | none => simp [isClinicOpen, hm, hf]
        | some f =>
          by_cases hft : strLeB f today = true
          · cases ht : c.closedTill with
            | none => simp [isClinicOpen, hm, hf, ht, hft]
            | some t =>
              by_cases htt : strLeB today t = true
              · simp [isClinicOpen, hm, hf, ht, hft, htt]
              · simp [isClinicOpen, hm, hf, ht, hft, htt]
          · simp [isClinicOpen, hm, hf, hft]

/-! ## Cancellation -/

/-- C9 (counterexample): calling `cancelBooking` on an already-completed
pending booking is not a no-op: the store changes and the status is
overwritten from completed to failed. -/
theorem cancel_completed_not_noop :
    ((cancelBooking c9Store "ord9").2 ≠ c9Store) ∧
    (findKV "ord9" ((cancelBooking c9Store "ord9").2).pending_bookings).map
      (fun p => p.status) = some PendingStatus.failed := by decide

/-- C9 (amended): whenever the pending booking exists — whatever its
current status — `cancelBooking` succeeds and overwrites the status to
failed; it never touches the confirmed-bookings documents, and a second
call is idempotent. On an already-completed booking this overwrites the
status rather than acting as a no-op, but the confirmed booking itself is
not reversed. -/
theorem cancel_marks_failed_idempotent :
    ∀ (s : Store) (orderId : String) (p : PendingBooking),
      findKV orderId s.pending_bookings = some p →
      (cancelBooking s orderId).1 = CancelResult.success ∧
      findKV orderId ((cancelBooking s orderId).2).pending_bookings =
        some { p with status := PendingStatus.failed } ∧
      ((cancelBooking s orderId).2).appointment_bookings =
        s.appointment_bookings ∧
      cancelBooking ((cancelBooking s orderId).2) orderId =
        (CancelResult.success, (cancelBooking s orderId).2) := by
  intro s orderId p h
  refine ⟨by simp [cancelBooking, h], ?_, by simp [cancelBooking, h], ?_⟩
  · simp [cancelBooking, h, findKV_setKV_self]
  · simp [cancelBooking, h, findKV_setKV_self, setKV_setKV_self]

/-- C9 witness: the amended claim evaluated on the concrete store with a
completed pending booking. -/
theorem cancel_marks_failed_idempotent_witness :
    (cancelBooking c9Store "ord9").1 = CancelResult.success ∧
    findKV "ord9" ((cancelBooking c9Store "ord9").2).pending_bookings =
      some { samplePending "ord9" "2025-06-10" .completed with
               status := PendingStatus.failed } ∧
    ((cancelBooking c9Store "ord9").2).appointment_bookings =
      c9Store.appointment_bookings ∧
    cancelBooking ((cancelBooking c9Store "ord9").2) "ord9" =
      (CancelResult.success, (cancelBooking c9Store "ord9").2) :=
  cancel_marks_failed_idempotent c9Store "ord9"
    (samplePending "ord9" "2025-06-10" .completed) (by decide)

/-! ## Double confirmation -/

/-- C3 (counterexample): with the completed pending booking for `ord1`
still present (slot 1 already allocated), a second `confirmBooking` call
does not return the original slot number with unchanged state: it returns
a fresh slot 2 and appends a second confirmed booking to the date
document. -/
theorem second_confirm_appends_duplicate :
    (confirmBooking c3Store "ord1" "pay2" none "T2").1 =
      ConfirmResult.ok 2 "2025-06-10" "Alice" ∧
    (findKV "10-06-2025"
        ((confirmBooking c3Store "ord1" "pay2" none "T2").2).appointment_bookings).map
      List.length = some 2 ∧
    (confirmBooking c3Store "ord1" "pay2" none "T2").2 ≠ c3Store := by decide

/-- C3 (amended): `confirmBooking` never consults the pending booking's
status field: even on an already-completed pending booking it re-runs the
slot-allocation transaction, appends a second `ConfirmedBooking` with the
fresh slot number `max + 1`, and returns that new number. The
already-confirmed guard lives in the webhook layer (`handlePaymentSuccess`),
not in `confirmBooking`. -/
theorem confirm_no_status_guard :
    ∀ (s : Store) (orderId paymentId : String) (pd : Option PaymentDetailsIn)
      (nowIso : String) (p : PendingBooking) (l : List BookingData),
      findKV orderId s.pending_bookings = some p →
      p.status = PendingStatus.completed →
      findKV (formatDateToDocId p.date) s.appointment_bookings = some l →
      l.length < 10 →
      (confirmBooking s orderId paymentId pd nowIso).1 =
        ConfirmResult.ok (maxSlot l + 1) p.date p.name ∧
      (findKV (formatDateToDocId p.date)
          ((confirmBooking s orderId paymentId pd nowIso).2).appointment_bookings).map
        List.length = some (l.length + 1) := by
  intro s orderId paymentId pd nowIso p l h1 _ h2 hlen
  constructor
  · simp [confirmBooking, h1, h2, slotAlloc_some_ok hlen]
  · simp [confirmBooking, h1, h2, slotAlloc_some_ok hlen, findKV_setKV_self]

/-- C3 witness: the amended claim evaluated on the concrete
post-first-confirmation store. -/
theorem confirm_no_status_guard_witness :
    (confirmBooking c3Store "ord1" "pay2" none "T2").1 =
      ConfirmResult.ok (maxSlot [sampleBooking 1 "ord1"] + 1)
        c3Pending.date c3Pending.name ∧
    (findKV (formatDateToDocId c3Pending.date)
        ((confirmBooking c3Store "ord1" "pay2" none "T2").2).appointment_bookings).map
      List.length = some ([sampleBooking 1 "ord1"].length + 1) :=
  confirm_no_status_guard c3Store "ord1" "pay2" none "T2" c3Pending
    [sampleBooking 1 "ord1"] (by decide) (by decide) (by decide) (by decide)

/-! ## Status endpoint: refund-on-closed-clinic -/

/-- C2 (counterexample): the webhook convergence path performs no clinic
re-check: with the clinic closed on 2025-06-03 (override window
2025-06-01..2025-06-05), `handlePaymentSuccess` for a still-pending
booking invokes `confirmBooking` and appends a confirmed booking. -/
theorem webhook_confirms_despite_closed_clinic :
    (isClinicOpen (ClinicRead.ok (some juneCtrl)) "2025-06-03").isOpen =
      false ∧
    (handlePaymentSuccess c2Store "t1" {} "2025-06-03T10:00:00Z").2 = true ∧
    (findKV "03-06-2025"
        ((handlePaymentSuccess c2Store "t1" {} "2025-06-03T10:00:00Z").1).appointment_bookings).map
      List.length = some 1 := by decide

/-- C2 (amended): when the payment-status check returns SUCCESS while the
clinic availability check reports closed, the status endpoint does not
confirm: on refund success it writes a refund record with status
initiated, deletes the pending booking, returns the REFUNDED outcome, and
leaves every date document untouched. (The webhook path performs no such
re-check; see the counterexample.) -/
theorem status_endpoint_refunds_when_closed :
    ∀ (s : Store) (tid : String) (payment : GwPayment) (cr : ClinicRead)
      (today nowIso : String) (rid? : Option String) (p : PendingBooking),
      findKV tid s.pending_bookings = some p →
      payment.status = "SUCCESS" →
      (isClinicOpen cr today).isOpen = false →
      (statusByTransaction s tid (.ok payment) cr today (.ok rid?) nowIso).1 =
        StatusResp.refunded (rid?.getD ("auto_" ++ tid)) ∧
      (findKV (rid?.getD ("auto_" ++ tid))
          ((statusByTransaction s tid (.ok payment) cr today (.ok rid?) nowIso).2).refunds).map
        (fun r => r.status) = some RefundStatus.initiated ∧
      findKV tid
        ((statusByTransaction s tid (.ok payment) cr today (.ok rid?) nowIso).2).pending_bookings =
        none ∧
      ((statusByTransaction s tid (.ok payment) cr today (.ok rid?) nowIso).2).appointment_bookings =
        s.appointment_bookings := by
  intro s tid payment cr today nowIso rid? p h1 hsucc hclosed
  refine ⟨?_, ?_, ?_, ?_⟩ <;>
    simp [statusByTransaction, h1, hsucc, hclosed, createRefundRecord,
      findKV_setKV_self, findKV_delKV_self]

/-- C2 witness: the spec scenario — override window 2025-06-01..2025-06-05,
status check succeeding on 2025-06-03 — triggers the refund branch. -/
theorem status_endpoint_refunds_when_closed_witness :
    (statusByTransaction c2Store "t1" (.ok { status := "SUCCESS" })
        (.ok (some juneCtrl)) "2025-06-03" (.ok (some "r1")) "iso").1 =
      StatusResp.refunded ((some "r1").getD ("auto_" ++ "t1")) ∧
    (findKV ((some "r1").getD ("auto_" ++ "t1"))
        ((statusByTransaction c2Store "t1" (.ok { status := "SUCCESS" })
          (.ok (some juneCtrl)) "2025-06-03" (.ok (some "r1")) "iso").2).refunds).map
      (fun r => r.status) = some RefundStatus.initiated ∧
    findKV "t1"
      ((statusByTransaction c2Store "t1" (.ok { status := "SUCCESS" })
        (.ok (some juneCtrl)) "2025-06-03" (.ok (some "r1")) "iso").2).pending_bookings =
      none ∧
    ((statusByTransaction c2Store "t1" (.ok { status := "SUCCESS" })
        (.ok (some juneCtrl)) "2025-06-03" (.ok (some "r1")) "iso").2).appointment_bookings =
      c2Store.appointment_bookings :=
  status_endpoint_refunds_when_closed c2Store "t1" { status := "SUCCESS" }
    (.ok (some juneCtrl)) "2025-06-03" "iso" (some "r1")
    (samplePending "t1" "2025-06-03" .pending) (by decide) rfl (by decide)

/-! ## Failed automatic refund -/

/-- C4 (counterexample): when `initiateRefund` throws (rather than
returning failure), the handler returns the REFUND_ERROR outcome with the
store completely unchanged — in particular no FailedRefundRecord is
written, contradicting the claim that one is durably written whenever
refund initiation does not complete. -/
theorem refund_throw_writes_no_record :
    statusByTransaction c4Store "t4" (.ok { status := "SUCCESS" })
        (.ok (some juneCtrl)) "2025-06-03" .throws "iso" =
      (StatusResp.refundErrorContact, c4Store) ∧
    c4Store.failed_refunds = [] := by decide

/-- C4 (amended): when `initiateRefund` returns failure (the non-throwing
failure path), a FailedRefundRecord with status "manual_required" is
written before the handler returns and the pending booking is not
deleted; when the call throws, the handler returns REFUND_ERROR without
writing any record (and also without deleting the pending booking). -/
theorem refund_failure_writes_manual_required :
    ∀ (s : Store) (tid : String) (payment : GwPayment) (cr : ClinicRead)
      (today nowIso err : String) (p : PendingBooking),
      findKV tid s.pending_bookings = some p →
      payment.status = "SUCCESS" →
      (isClinicOpen cr today).isOpen = false →
      ((statusByTransaction s tid (.ok payment) cr today (.fail err) nowIso).1 =
        StatusResp.refundPendingContact ∧
       (findKV tid
          ((statusByTransaction s tid (.ok payment) cr today (.fail err) nowIso).2).failed_refunds).map
         (fun r => r.status) = some "manual_required" ∧
       findKV tid
         ((statusByTransaction s tid (.ok payment) cr today (.fail err) nowIso).2).pending_bookings =
         some p) ∧
      statusByTransaction s tid (.ok payment) cr today .throws nowIso =
        (StatusResp.refundErrorContact, s) := by
  intro s tid payment cr today nowIso err p h1 hsucc hclosed
  refine ⟨⟨?_, ?_, ?_⟩, ?_⟩ <;>
    simp [statusByTransaction, h1, hsucc, hclosed, findKV_setKV_self]

/-- C4 witness: the amended claim evaluated on the concrete store, with the
refund call reporting failure. -/
theorem refund_failure_writes_manual_required_witness :
    ((statusByTransaction c4Store "t4" (.ok { status := "SUCCESS" })
        (.ok (some juneCtrl)) "2025-06-03" (.fail "gw down") "iso").1 =
      StatusResp.refundPendingContact ∧
     (findKV "t4"
        ((statusByTransaction c4Store "t4" (.ok { status := "SUCCESS" })
          (.ok (some juneCtrl)) "2025-06-03" (.fail "gw down") "iso").2).failed_refunds).map
       (fun r => r.status) = some "manual_required" ∧
     findKV "t4"
       ((statusByTransaction c4Store "t4" (.ok { status := "SUCCESS" })
         (.ok (some juneCtrl)) "2025-06-03" (.fail "gw down") "iso").2).pending_bookings =
       some (samplePending "t4" "2025-06-03" .pending)) ∧
    statusByTransaction c4Store "t4" (.ok { status := "SUCCESS" })
        (.ok (some juneCtrl)) "2025-06-03" .throws "iso" =
      (StatusResp.refundErrorContact, c4Store) :=
  refund_failure_writes_manual_required c4Store "t4" { status := "SUCCESS" }
    (.ok (some juneCtrl)) "2025-06-03" "iso" "gw down"
    (samplePending "t4" "2025-06-03" .pending) (by decide) rfl (by decide)

/-! ## Webhook-layer lemmas -/

theorem confirmBooking_webhook_logs {s : Store} {a b : String}
    {pd : Option PaymentDetailsIn} {iso : String} {r : ConfirmResult}
    {s1 : Store} (h : confirmBooking s a b pd iso = (r, s1)) :
    s1.webhook_logs = s.webhook_logs := by
  have hgen : ((confirmBooking s a b pd iso).2).webhook_logs =
      s.webhook_logs := by
    unfold confirmBooking
    split
    · rfl
    · dsimp only
      split
      · rfl
      · rfl
  rw [h] at hgen
  exact hgen

theorem cancelBooking_webhook_logs (s : Store) (oid : String) :
    ((cancelBooking s oid).2).webhook_logs = s.webhook_logs := by
  unfold cancelBooking
  split <;> rfl

theorem handlePaymentSuccess_webhook_logs (s : Store) (tid : String)
    (payload : WebhookPayload) (iso : String) :
    ((handlePaymentSuccess s tid payload iso).1).webhook_logs =
      s.webhook_logs := by
  unfold handlePaymentSuccess
  split
  · rfl
  · split
    · rfl
    · dsimp only
      split
      · rename_i s1 heq
        simpa using confirmBooking_webhook_logs heq
      · rename_i r s1 heq
        simpa using confirmBooking_webhook_logs heq

theorem dispatchWebhook_webhook_logs (s : Store) (tid etype : String)
    (payload : WebhookPayload) (iso : String) :
    (dispatchWebhook s tid etype payload iso).webhook_logs =
      s.webhook_logs := by
  unfold dispatchWebhook
  split_ifs
  · exact handlePaymentSuccess_webhook_logs s tid payload iso
  · exact cancelBooking_webhook_logs s tid
  · simp [handleRefundCompleted]
  · simp [handleRefundFailed]
  · rfl

theorem any_markProcessed (L : List WebhookLog) (tid etype : String) :
    (markProcessed L).any (fun log =>
        log.transactionId == tid && log.eventType == etype) =
      L.any (fun log =>
        log.transactionId == tid && log.eventType == etype) := by
  induction L with
  | nil => rfl
  | cons x xs ih =>
    cases xs with
    | nil => simp [markProcessed]
    | cons y ys =>
      have hstep : markProcessed (x :: y :: ys) =
          x :: markProcessed (y :: ys) := rfl
      rw [hstep, List.any_cons, List.any_cons, ih]

theorem logExists_after_webhookStep {s : Store} {tid etype : String}
    {payload : WebhookPayload} {iso : String} {r1 : WebhookResp} {s1 : Store}
    (htid : tid ≠ "") (hetype : etype ≠ "")
    (h : webhookStep s tid etype payload iso = (r1, s1)) :
    logExists s1 tid etype = true := by
  by_cases hlog : logExists s tid etype = true
  · have hrun : webhookStep s tid etype payload iso =
        (WebhookResp.alreadyProcessed, s) := by
      simp [webhookStep, htid, hetype, hlog]
    rw [hrun] at h
    injection h with h1 h2
    subst h2
    exact hlog
  · have hlog' : logExists s tid etype = false :=
      Bool.eq_false_iff.mpr (fun hc => hlog hc)
    simp only [webhookStep, htid, hetype, hlog'] at h
    simp only [or_self, if_false, Bool.false_eq_true] at h
    injection h with h1 h2
    subst h2
    simp only [logExists]
    rw [any_markProcessed, dispatchWebhook_webhook_logs]
    simp [List.any_append]

/-- C5: if a webhook-log record with the same (transactionId, eventType)
pair already exists, the webhook handler short-circuits with the
already-processed response and the store entirely unchanged (no confirm,
cancel, refund update or log write); consequently re-processing any
webhook a second time with the same pair has no additional side effects. -/
theorem webhook_duplicate_short_circuit :
    ∀ (s : Store) (tid etype : String) (payload : WebhookPayload)
      (iso : String), tid ≠ "" → etype ≠ "" →
      (logExists s tid etype = true →
        webhookStep s tid etype payload iso =
          (WebhookResp.alreadyProcessed, s)) ∧
      (∀ r1 s1, webhookStep s tid etype payload iso = (r1, s1) →
        webhookStep s1 tid etype payload iso =
          (WebhookResp.alreadyProcessed, s1)) := by
  intro s tid etype payload iso htid hetype
  refine ⟨fun hlog => by simp [webhookStep, htid, hetype, hlog], ?_⟩
  intro r1 s1 h
  have hex := logExists_after_webhookStep htid hetype h
  simp [webhookStep, htid, hetype, hex]

/-- C5 witness: a store already holding the (t5, CHECKOUT_ORDER_COMPLETED)
log short-circuits, unchanged. -/
theorem webhook_duplicate_short_circuit_witness :
    webhookStep c5Store "t5" "CHECKOUT_ORDER_COMPLETED" {} "iso" =
      (WebhookResp.alreadyProcessed, c5Store) :=
  (webhook_duplicate_short_circuit c5Store "t5" "CHECKOUT_ORDER_COMPLETED"
    {} "iso" (by decide) (by decide)).1 (by decide)

/-- C10: `handlePaymentSuccess` performs no state change at all — and never
calls `confirmBooking` — when the pending booking for the transaction is
absent or already completed: the already-confirmed guard on the webhook
path lives here, not inside `confirmBooking`. -/
theorem webhook_success_guard :
    ∀ (s : Store) (tid : String) (payload : WebhookPayload) (iso : String),
      (findKV tid s.pending_bookings = none ∨
       ∃ p, findKV tid s.pending_bookings = some p ∧
         p.status = PendingStatus.completed) →
      handlePaymentSuccess s tid payload iso = (s, false) := by
  intro s tid payload iso h
  rcases h with h | ⟨p, hp, hst⟩
  · simp [handlePaymentSuccess, h]
  · simp [handlePaymentSuccess, hp, hst]

/-- C10 witness: a completed pending booking makes the webhook success
handler a strict no-op. -/
theorem webhook_success_guard_witness :
    handlePaymentSuccess c10Store "t10" {} "iso" = (c10Store, false) :=
  webhook_success_guard c10Store "t10" {} "iso"
    (Or.inr ⟨samplePending "t10" "2025-06-10" .completed, by decide, rfl⟩)

/-! ## Create-order validation ordering -/

/-- C8: for a request passing field/amount/phone validation, a Sunday date
is rejected with the Sunday 400 response before the gateway is contacted
and with the store unchanged (the rejection precedes even the lazy pending
cleanup); a request for today at hour 19 or later is likewise rejected
with the cutoff 400 response; and a request for today before 19:00 (on a
non-Sunday) passes both of these checks. -/
theorem create_order_sunday_cutoff :
    ∀ (s : Store) (req : OrderReq) (now : NowTime) (cr : ClinicRead)
      (today : String) (cleanup : Store → Store) (gw : GwOrder),
      req.date ≠ "" → req.name ≠ "" → req.gender ≠ "" → req.age ≠ 0 →
      req.phone ≠ "" → req.amount = 400 → phoneValid req.phone = true →
      (isSundayStr req.date = true →
        createOrder s req now cr today cleanup gw =
          ⟨CreateOrderResp.sundayClosed, s, false⟩) ∧
      (isSundayStr req.date = false → isTodayStr req.date now = true →
        19 ≤ now.hour →
        createOrder s req now cr today cleanup gw =
          ⟨CreateOrderResp.afterCutoff, s, false⟩) ∧
      (isSundayStr req.date = false → isTodayStr req.date now = true →
        now.hour < 19 →
        (createOrder s req now cr today cleanup gw).resp ≠
          CreateOrderResp.sundayClosed ∧
        (createOrder s req now cr today cleanup gw).resp ≠
          CreateOrderResp.afterCutoff) := by
  intro s req now cr today cleanup gw hd hn hg ha hp ham hpv
  refine ⟨?_, ?_, ?_⟩
  · intro hsun
    simp [createOrder, hd, hn, hg, ha, hp, ham, hpv, hsun]
  · intro hsun htoday h19
    simp [createOrder, hd, hn, hg, ha, hp, ham, hpv, hsun, htoday, h19]
  · intro hsun htoday hlt
    have hlt19 : ¬19 ≤ now.hour := Nat.not_le.mpr hlt
    constructor <;>
    · simp only [createOrder, hd, hn, hg, ha, hp, ham, hpv, hsun, htoday,
        hlt19, ne_eq, not_false_eq_true, not_true_eq_false, if_false,
        ite_false, Bool.false_eq_true, and_true, false_and, if_neg]
      by_cases hopen : (isClinicOpen cr today).isOpen
      · simp only [hopen, Bool.not_true, Bool.false_eq_true, ite_false,
          if_false]
        cases hfind : findKV (formatDateToDocId req.date)
            (cleanup s).appointment_bookings with
        | none => cases gw <;> simp [hfind]
        | some bookings =>
          by_cases hlen : 10 ≤ bookings.length
          · simp [hfind, hlen]
          · cases gw <;> simp [hfind, hlen]
      · simp [hopen]

/-- C8 witness: the concrete Sunday request (2025-06-01) is rejected
before any gateway call; the concrete same-day request at 20:00 is
rejected by the cutoff; the same request at 10:00 passes both checks. -/
theorem create_order_sunday_cutoff_witness :
    createOrder {} c8SundayReq c8NowLate (.ok none) "2025-05-31" id
        (.ok "o1") =
      ⟨CreateOrderResp.sundayClosed, {}, false⟩ ∧
    createOrder {} c8TodayReq c8NowLate (.ok none) "2025-05-31" id
        (.ok "o1") =
      ⟨CreateOrderResp.afterCutoff, {}, false⟩ ∧
    ((createOrder {} c8TodayReq c8NowEarly (.ok none) "2025-05-31" id
        (.ok "o1")).resp ≠ CreateOrderResp.sundayClosed ∧
     (createOrder {} c8TodayReq c8NowEarly (.ok none) "2025-05-31" id
        (.ok "o1")).resp ≠ CreateOrderResp.afterCutoff) :=
  ⟨(create_order_sunday_cutoff {} c8SundayReq c8NowLate (.ok none)
      "2025-05-31" id (.ok "o1") (by decide) (by decide) (by decide)
      (by decide) (by decide) (by decide) (by decide)).1 (by decide),
   (create_order_sunday_cutoff {} c8TodayReq c8NowLate (.ok none)
      "2025-05-31" id (.ok "o1") (by decide) (by decide) (by decide)
      (by decide) (by decide) (by decide) (by decide)).2.1 (by decide)
      (by decide) (by decide),
   (create_order_sunday_cutoff {} c8TodayReq c8NowEarly (.ok none)
      "2025-05-31" id (.ok "o1") (by decide) (by decide) (by decide)
      (by decide) (by decide) (by decide) (by decide)).2.2 (by decide)
      (by decide) (by decide)⟩

end Clinic
